import Mathlib

/-!
Verification of the Convergence content cache (`confluence.go`).

The Go code is shallowly embedded: each accessor becomes a pure function
from the current `Confluence` state, the current clock value and the
outcome of the (single) remote request the accessor may perform, to a
result, a successor state and a flag recording whether the remote was
contacted.  A failing Go type assertion (`.Data().(string)` on a missing
or non-string JSON node, or a cache value of an unexpected dynamic type)
is modelled as the `Result.panic` outcome.
-/

set_option linter.unusedVariables false

namespace Convergence

/-- JSON values as produced by `gabs.ParseJSON`.  No claim inspects a
numeric payload, so `num` carries none (Go would hold a float64). -/
inductive Json where
  | null : Json
  | bool (b : Bool) : Json
  | num : Json
  | str (s : String) : Json
  | arr (elems : List Json) : Json
  | obj (fields : List (String × Json)) : Json

/-- gabs `Container.Search` / `Path`: walk object fields along the
dot-separated segments; `none` when a segment is missing or the current
node is not an object (gabs returns a nil container then). -/
def jsonPath : Json → List String → Option Json
  | j, [] => some j
  | .obj fields, seg :: rest =>
    match fields.find? (fun f => f.1 == seg) with
    | some f => jsonPath f.2 rest
    | none => none
  | _, _ :: _ => none

/-- Go type assertion `.Data().(string)`: `none` models the runtime panic
raised on a missing path (nil data) or a non-string value. -/
def asString : Option Json → Option String
  | some (.str s) => some s
  | _ => none

/-- gabs `Children()` applied to the node at `results`.  Only the array
case is reachable in the repository's responses; the error returned for
nil or non-array nodes (and the unordered Go-map enumeration, which no
claim exercises) is folded into `none`. -/
def jsonChildren : Option Json → Option (List Json)
  | some (.arr xs) => some xs
  | _ => none

/-- Fuel-indexed core of Go `strings.Replace(s, p, q, -1)`: replace the
leftmost occurrence of `p` and continue scanning after it.  The fuel is
always started at the length of `s`, which suffices because every step
consumes at least one element of `s`. -/
def replaceAllAux (p q : List Char) : Nat → List Char → List Char
  | 0, s => s
  | Nat.succ _, [] => []
  | Nat.succ fuel, c :: rest =>
    if p.isPrefixOf (c :: rest) && !p.isEmpty then
      q ++ replaceAllAux p q fuel (List.drop (p.length - 1) rest)
    else
      c :: replaceAllAux p q fuel rest

/-- Go `strings.Replace(s, p, q, -1)` on character lists (`p` is nonempty
at every call site of the source). -/
def replaceAll (p q s : List Char) : List Char :=
  replaceAllAux p q s.length s

/-- Go `strings.Replace(s, p, q, -1)` on strings. -/
def stringReplace (s p q : String) : String :=
  ⟨replaceAll p.data q.data s.data⟩

/-- `strings.Replace(title, " ", "+", -1)` as used by `handlePageData`
for the title-derived cache key. -/
def normalizeTitle (t : String) : String :=
  stringReplace t " " "+"

/-- `handlePageData` body rewrite: internal display links become local
page links, internal attachment-download links become local download
links (applied in this order in the source). -/
def rewriteBody (s : String) : String :=
  stringReplace (stringReplace s "/wiki/display/" "/page/") "/wiki/download/attachments/" "/download/"

/-- Go struct `Space` (`Type'` stands for the Go field `Type`). -/
structure Space where
  ID : String
  Key : String
  Name : String
  Type' : String
  Link : String
  Description : String
  HomepageID : String
  deriving DecidableEq

/-- Go struct `Page` (`Type'` is the Go field `Type`; `BodyT` is the
`template.HTML` wrapper around the same string). -/
structure Page where
  ID : String
  Type' : String
  Status : String
  Title : String
  Link : String
  Body : String
  BodyT : String
  deriving DecidableEq

/-- Go struct `Attachment`; `Data` is the byte payload. -/
structure Attachment where
  Data : List Nat
  ContentType : String
  deriving DecidableEq

/-- Dynamic values held by the go-cache store; Go stores them untyped and
the accessors re-assert their types on every hit. -/
inductive CacheValue where
  | spaces (v : List Space)
  | page (v : Page)
  | attachment (v : Attachment)
  deriving DecidableEq

/-- One go-cache item: value plus absolute expiration instant. -/
structure CacheEntry where
  value : CacheValue
  expiration : Nat
  deriving DecidableEq

/-- The go-cache store: default time-to-live, janitor sweep interval
(both in seconds here) and the keyed items. -/
structure Cache where
  defaultTTL : Nat
  cleanupInterval : Nat
  entries : List (String × CacheEntry)
  deriving DecidableEq

/-- `cache.New(ttl, cleanup)`. -/
def cacheNew (ttl cleanup : Nat) : Cache :=
  ⟨ttl, cleanup, []⟩

/-- go-cache `Get`: a key misses when absent or when `now` is past the
item's expiration (`time.Now().UnixNano() > item.Expiration`). -/
def cacheGet (st : Cache) (now : Nat) (k : String) : Option CacheValue :=
  match st.entries.find? (fun e => e.1 == k) with
  | some e => if e.2.expiration < now then none else some e.2.value
  | none => none

/-- go-cache `Set` with `cache.DefaultExpiration`: (re)binds `k` to the
value, expiring `defaultTTL` after `now`. -/
def cacheSet (st : Cache) (now : Nat) (k : String) (v : CacheValue) : Cache :=
  { st with entries := (k, ⟨v, now + st.defaultTTL⟩) :: st.entries.filter (fun e => !(e.1 == k)) }

/-- Go struct `Confluence` (the `gorequest` client carries no state the
claims observe and is omitted). -/
structure Confluence where
  BaseURL : String
  Username : String
  Password : String
  cache : Cache
  deriving DecidableEq

/-- `NewConfluence()`: fresh store with 30-minute TTL and 5-minute sweep
(in seconds). -/
def NewConfluence : Confluence :=
  ⟨"", "", "", cacheNew (30 * 60) (5 * 60)⟩

/-- `Reset()`: replace the store by a fresh one with 5-minute TTL and
30-second sweep. -/
def Reset (c : Confluence) : Confluence :=
  { c with cache := cacheNew (5 * 60) 30 }

/-- Outcome of one JSON request: transport error (`errs` nonempty),
empty body, `gabs.ParseJSON` failure, or a parsed JSON document. -/
inductive RemoteResponse where
  | transportErr
  | empty
  | parseFail
  | json (j : Json)

/-- Outcome of one attachment download: transport error, or the raw
bytes together with the `Content-Type` header. -/
inductive ByteResponse where
  | transportErr
  | ok (data : List Nat) (contentType : String)

/-- The error values the source can return: `errs[0]`, the literal
`fmt.Errorf("zero response")`, a `gabs.ParseJSON` error, a gabs
`Children()` error, and `ErrNotFound`. -/
inductive Err where
  | remote
  | zeroResponse
  | parseError
  | childrenError
  | notFound
  deriving DecidableEq

/-- Result of one accessor call; `panic` models a failed Go type
assertion crashing the process. -/
inductive Result (α : Type) where
  | panic
  | error (e : Err)
  | ok (v : α)
  deriving DecidableEq

/-- One accessor call: its result, the successor state, and whether the
remote API was contacted. -/
structure OpOut (α : Type) where
  res : Result α
  state : Confluence
  fetched : Bool
  deriving DecidableEq

/-- Per-element extraction of `GetSpaces`: seven string assertions in
source order, plus the textual strip of the homepage link prefix. -/
def parseSpace (j : Json) : Option Space := do
  let id ← asString (jsonPath j ["id"])
  let key ← asString (jsonPath j ["key"])
  let name ← asString (jsonPath j ["name"])
  let ty ← asString (jsonPath j ["type"])
  let link ← asString (jsonPath j ["_links", "self"])
  let desc ← asString (jsonPath j ["description", "view", "value"])
  let linkHomepage ← asString (jsonPath j ["_expandable", "homepage"])
  pure { ID := id, Key := key, Name := name, Type' := ty, Link := link,
         Description := desc,
         HomepageID := stringReplace linkHomepage "/rest/api/content/" "" }

/-- The loop of `GetSpaces` over the `results` array; any failing
assertion in any element crashes the whole call. -/
def parseSpaces : List Json → Option (List Space)
  | [] => some []
  | j :: rest =>
    match parseSpace j, parseSpaces rest with
    | some s, some ss => some (s :: ss)
    | _, _ => none

/-- `GetSpaces`: fixed key `spaces-all`; on a miss fetch, parse, store the
full list, return it. -/
def GetSpaces (c : Confluence) (now : Nat) (resp : RemoteResponse) : OpOut (List Space) :=
  match cacheGet c.cache now "spaces-all" with
  | some (.spaces sp) => ⟨.ok sp, c, false⟩
  | some _ => ⟨.panic, c, false⟩
  | none =>
    match resp with
    | .transportErr => ⟨.error .remote, c, true⟩
    | .empty => ⟨.error .zeroResponse, c, true⟩
    | .parseFail => ⟨.error .parseError, c, true⟩
    | .json j =>
      match jsonChildren (jsonPath j ["results"]) with
      | none => ⟨.error .childrenError, c, true⟩
      | some arr =>
        match parseSpaces arr with
        | none => ⟨.panic, c, true⟩
        | some spaces =>
          ⟨.ok spaces, { c with cache := cacheSet c.cache now "spaces-all" (.spaces spaces) }, true⟩

/-- `GetSpace`: route through `GetSpaces` and linearly scan for the first
space whose `Key` matches; `ErrNotFound` otherwise. -/
def GetSpace (c : Confluence) (now : Nat) (key : String) (resp : RemoteResponse) : OpOut Space :=
  match GetSpaces c now resp with
  | ⟨.panic, c', f⟩ => ⟨.panic, c', f⟩
  | ⟨.error e, c', f⟩ => ⟨.error e, c', f⟩
  | ⟨.ok spaces, c', f⟩ =>
    match spaces.find? (fun s => s.Key == key) with
    | some s => ⟨.ok s, c', f⟩
    | none => ⟨.error .notFound, c', f⟩

/-- The page extraction of `handlePageData`: five string assertions, the
body rewrite, then the canonical link built from `_links.base` and
`_links.webui` (the earlier assignment of `Link` from the title is
overwritten and unobservable). -/
def parsePage (j : Json) : Option Page := do
  let id ← asString (jsonPath j ["id"])
  let ty ← asString (jsonPath j ["type"])
  let status ← asString (jsonPath j ["status"])
  let title ← asString (jsonPath j ["title"])
  let rawBody ← asString (jsonPath j ["body", "view", "value"])
  let linkBase ← asString (jsonPath j ["_links", "base"])
  let linkWeb ← asString (jsonPath j ["_links", "webui"])
  pure { ID := id, Type' := ty, Status := status, Title := title,
         Link := linkBase ++ "/" ++ linkWeb,
         Body := rewriteBody rawBody, BodyT := rewriteBody rawBody }

/-- `handlePageData`: extract the page, then store it under both the
id-derived key and the normalized-title key. -/
def handlePageData (c : Confluence) (now : Nat) (key : String) (j : Json) : Result Page × Confluence :=
  match parsePage j with
  | none => (.panic, c)
  | some page =>
    (.ok page,
      { c with cache := cacheSet (cacheSet c.cache now ("pages-" ++ key ++ "-" ++ page.ID) (.page page)) now ("pages-" ++ key ++ "-" ++ normalizeTitle page.Title) (.page page) })

/-- `GetPageByTitle`: look up under the raw-title key; on a miss fetch the
content list, take the first result, and hand it to `handlePageData`. -/
def GetPageByTitle (c : Confluence) (now : Nat) (key title : String) (resp : RemoteResponse) : OpOut Page :=
  match cacheGet c.cache now ("pages-" ++ key ++ "-" ++ title) with
  | some (.page p) => ⟨.ok p, c, false⟩
  | some _ => ⟨.panic, c, false⟩
  | none =>
    match resp with
    | .transportErr => ⟨.error .remote, c, true⟩
    | .empty => ⟨.error .zeroResponse, c, true⟩
    | .parseFail => ⟨.error .parseError, c, true⟩
    | .json j =>
      match jsonChildren (jsonPath j ["results"]) with
      | none => ⟨.error .childrenError, c, true⟩
      | some [] => ⟨.error .notFound, c, true⟩
      | some (r :: _) =>
        ⟨(handlePageData c now key r).1, (handlePageData c now key r).2, true⟩

/-- `GetPageById`: look up under the id key; on a miss fetch the single
content item (an empty body yields `ErrNotFound` here, unlike the other
accessors) and hand the whole document to `handlePageData`. -/
def GetPageById (c : Confluence) (now : Nat) (key id : String) (resp : RemoteResponse) : OpOut Page :=
  match cacheGet c.cache now ("pages-" ++ key ++ "-" ++ id) with
  | some (.page p) => ⟨.ok p, c, false⟩
  | some _ => ⟨.panic, c, false⟩
  | none =>
    match resp with
    | .transportErr => ⟨.error .remote, c, true⟩
    | .empty => ⟨.error .notFound, c, true⟩
    | .parseFail => ⟨.error .parseError, c, true⟩
    | .json j =>
      ⟨(handlePageData c now key j).1, (handlePageData c now key j).2, true⟩

/-- `GetAttachment`: the cache key uses id, filename and modification
date only; `version` and `api` reach the remote query but not the key.
Zero downloaded bytes yield `ErrNotFound` without caching. -/
def GetAttachment (c : Confluence) (now : Nat) (id file version date api : String)
    (resp : ByteResponse) : OpOut Attachment :=
  match cacheGet c.cache now ("attachment-" ++ id ++ "-" ++ file ++ "-" ++ date) with
  | some (.attachment a) => ⟨.ok a, c, false⟩
  | some _ => ⟨.panic, c, false⟩
  | none =>
    match resp with
    | .transportErr => ⟨.error .remote, c, true⟩
    | .ok data contentType =>
      if data.isEmpty then ⟨.error .notFound, c, true⟩
      else
        ⟨.ok ⟨data, contentType⟩,
          { c with cache := cacheSet c.cache now ("attachment-" ++ id ++ "-" ++ file ++ "-" ++ date) (.attachment ⟨data, contentType⟩) }, true⟩

/-! ### Helper lemmas about `replaceAll` -/

theorem replaceAllAux_no_occ (p q : List Char) :
    ∀ (fuel : Nat) (s : List Char), ¬ p <:+: s → replaceAllAux p q fuel s = s := by
  intro fuel
  induction fuel with
  | zero => intro s _; rfl
  | succ n ih =>
    intro s h
    cases s with
    | nil => rfl
    | cons c rest =>
      have hpre : p.isPrefixOf (c :: rest) = false := by
        cases hb : p.isPrefixOf (c :: rest)
        · rfl
        · exact absurd ( List.IsPrefix.isInfix (List.isPrefixOf_iff_prefix.mp hb)) h
      have hrest : ¬ p <:+: rest := fun hf => h ( List.infix_cons hf)
      simp [replaceAllAux, hpre, ih rest hrest]

theorem replaceAll_no_occ (p q s : List Char) (h : ¬ p <:+: s) : replaceAll p q s = s :=
  replaceAllAux_no_occ p q s.length s h

theorem space_no_mem_replaceAllAux :
    ∀ (fuel : Nat) (s : List Char), s.length ≤ fuel → ' ' ∉ replaceAllAux [' '] ['+'] fuel s := by
  intro fuel
  induction fuel with
  | zero =>
    intro s hs
    have hnil : s = [] := List.eq_nil_of_length_eq_zero (Nat.le_zero.mp hs)
    subst hnil
    simp [replaceAllAux]
  | succ n ih =>
    intro s hs
    cases s with
    | nil => simp [replaceAllAux]
    | cons c rest =>
      have hlen : rest.length ≤ n := Nat.le_of_succ_le_succ hs
      by_cases hc : c = ' '
      · subst hc
        have hpre : ([' '] : List Char).isPrefixOf (' ' :: rest) = true := by
          simp [List.isPrefixOf]
        simp only [replaceAllAux, hpre, List.isEmpty, Bool.not_false, Bool.and_true,
          if_true, List.drop]
        intro hmem
        rcases List.mem_append.mp hmem with hq | hrec
        · simp at hq
        · exact ih _ hlen (by simpa using hrec)
      · have hpre : ([' '] : List Char).isPrefixOf (c :: rest) = false := by
          simp [List.isPrefixOf]
          exact fun hcc => hc hcc.symm
        simp only [replaceAllAux, hpre, Bool.false_and, if_false]
        intro hmem
        rcases List.mem_cons.mp hmem with hq | hrec
        · exact hc hq.symm
        · exact ih _ hlen hrec

theorem normalizeTitle_no_space (t : String) : ' ' ∉ (normalizeTitle t).data := by
  show ' ' ∉ replaceAllAux [' '] ['+'] t.data.length t.data
  exact space_no_mem_replaceAllAux t.data.length t.data (Nat.le_refl _)

/-! ### Helper lemmas about strings and the cache store -/

theorem string_append_cancel_left (a x y : String) (h : a ++ x = a ++ y) : x = y := by
  apply String.ext
  have hd : a.data ++ x.data = a.data ++ y.data := congrArg String.data h
  exact List.append_cancel_left hd

theorem find?_filter_ne (l : List (String × CacheEntry)) (k k' : String) (h : k ≠ k') :
    (l.filter (fun e => !(e.1 == k'))).find? (fun e => e.1 == k) = l.find? (fun e => e.1 == k) := by
  induction l with
  | nil => rfl
  | cons e rest ih =>
    by_cases he : e.1 = k'
    · have h1 : (e.1 == k') = true := beq_iff_eq.mpr he
      have h2 : (e.1 == k) = false := beq_eq_false_iff_ne.mpr (by rw [he]; exact Ne.symm h)
      simp [List.filter_cons, List.find?_cons, h1, h2, ih]
    · have h1 : (e.1 == k') = false := beq_eq_false_iff_ne.mpr he
      by_cases hek : e.1 = k
      · have h2 : (e.1 == k) = true := beq_iff_eq.mpr hek
        simp [List.filter_cons, List.find?_cons, h1, h2]
      · have h2 : (e.1 == k) = false := beq_eq_false_iff_ne.mpr hek
        simp [List.filter_cons, List.find?_cons, h1, h2, ih]

theorem cacheGet_cacheSet_self (st : Cache) (now : Nat) (k : String) (v : CacheValue) :
    cacheGet (cacheSet st now k v) now k = some v := by
  unfold cacheGet cacheSet
  simp only [List.find?_cons, beq_self_eq_true]
  exact if_neg (Nat.not_lt.mpr (Nat.le_add_right now st.defaultTTL))

theorem cacheGet_cacheSet_ne (st : Cache) (now now2 : Nat) (k k' : String) (v : CacheValue)
    (h : k ≠ k') : cacheGet (cacheSet st now k' v) now2 k = cacheGet st now2 k := by
  unfold cacheGet cacheSet
  have h1 : (k' == k) = false := beq_eq_false_iff_ne.mpr (Ne.symm h)
  simp only [List.find?_cons, h1, cond_false]
  rw [find?_filter_ne st.entries k k' h]

theorem parseSpaces_none_of_mem {elems : List Json} {e : Json}
    (hmem : e ∈ elems) (hbad : parseSpace e = none) : parseSpaces elems = none := by
  induction elems with
  | nil => cases hmem
  | cons x rest ih =>
    rcases List.mem_cons.mp hmem with hx | hx
    · subst hx; simp [parseSpaces, hbad]
    · cases hx2 : parseSpace x <;> simp [parseSpaces, hx2, ih hx]

/-! ### Per-operation characterizations -/

theorem getPageByTitle_hit (c : Confluence) (now : Nat) (key title : String) (page : Page)
    (h : cacheGet c.cache now ("pages-" ++ key ++ "-" ++ title) = some (.page page))
    (resp : RemoteResponse) : GetPageByTitle c now key title resp = ⟨.ok page, c, false⟩ := by
  unfold GetPageByTitle
  rw [h]

theorem getPageById_hit (c : Confluence) (now : Nat) (key id : String) (page : Page)
    (h : cacheGet c.cache now ("pages-" ++ key ++ "-" ++ id) = some (.page page))
    (resp : RemoteResponse) : GetPageById c now key id resp = ⟨.ok page, c, false⟩ := by
  unfold GetPageById
  rw [h]

theorem getAttachment_hit (c : Confluence) (now : Nat) (id file ver date api : String)
    (att : Attachment)
    (h : cacheGet c.cache now ("attachment-" ++ id ++ "-" ++ file ++ "-" ++ date) = some (.attachment att))
    (resp : ByteResponse) : GetAttachment c now id file ver date api resp = ⟨.ok att, c, false⟩ := by
  unfold GetAttachment
  rw [h]

theorem getSpaces_miss_fetched (c : Confluence) (now : Nat) (resp : RemoteResponse)
    (h : cacheGet c.cache now "spaces-all" = none) : (GetSpaces c now resp).fetched = true := by
  unfold GetSpaces
  rw [h]
  cases resp with
  | transportErr => rfl
  | empty => rfl
  | parseFail => rfl
  | json j =>
    simp only []
    split
    · rfl
    · split <;> rfl

theorem getPageByTitle_miss_fetched (c : Confluence) (now : Nat) (key title : String)
    (resp : RemoteResponse) (h : cacheGet c.cache now ("pages-" ++ key ++ "-" ++ title) = none) :
    (GetPageByTitle c now key title resp).fetched = true := by
  unfold GetPageByTitle
  rw [h]
  cases resp with
  | transportErr => rfl
  | empty => rfl
  | parseFail => rfl
  | json j =>
    simp only []
    split <;> rfl

theorem getPageById_miss_fetched (c : Confluence) (now : Nat) (key id : String)
    (resp : RemoteResponse) (h : cacheGet c.cache now ("pages-" ++ key ++ "-" ++ id) = none) :
    (GetPageById c now key id resp).fetched = true := by
  unfold GetPageById
  rw [h]
  cases resp with
  | transportErr => rfl
  | empty => rfl
  | parseFail => rfl
  | json j => rfl

theorem getAttachment_miss_fetched (c : Confluence) (now : Nat) (id file ver date api : String)
    (resp : ByteResponse)
    (h : cacheGet c.cache now ("attachment-" ++ id ++ "-" ++ file ++ "-" ++ date) = none) :
    (GetAttachment c now id file ver date api resp).fetched = true := by
  unfold GetAttachment
  rw [h]
  cases resp with
  | transportErr => rfl
  | ok data ct =>
    simp only []
    split <;> rfl

theorem getSpace_fetched (c : Confluence) (now : Nat) (key : String) (resp : RemoteResponse) :
    (GetSpace c now key resp).fetched = (GetSpaces c now resp).fetched := by
  unfold GetSpace
  cases h : GetSpaces c now resp with
  | mk r st f =>
    cases r with
    | panic => rfl
    | error e => rfl
    | ok sps =>
      simp only []
      split <;> rfl

theorem getPageById_fetch (c : Confluence) (now : Nat) (key id : String) (resp : RemoteResponse)
    (page : Page) (c' : Confluence)
    (h : GetPageById c now key id resp = ⟨.ok page, c', true⟩) :
    c' = { c with cache := cacheSet (cacheSet c.cache now ("pages-" ++ key ++ "-" ++ page.ID) (.page page)) now ("pages-" ++ key ++ "-" ++ normalizeTitle page.Title) (.page page) }
    ∧ cacheGet c.cache now ("pages-" ++ key ++ "-" ++ id) = none := by
  unfold GetPageById at h
  cases hGet : cacheGet c.cache now ("pages-" ++ key ++ "-" ++ id) with
  | some v =>
    rw [hGet] at h
    cases v <;> simp at h
  | none =>
    rw [hGet] at h
    refine ⟨?_, rfl⟩
    cases resp with
    | transportErr => simp at h
    | empty => simp at h
    | parseFail => simp at h
    | json j =>
      unfold handlePageData at h
      simp only [] at h
      cases hp : parsePage j with
      | none => rw [hp] at h; simp at h
      | some p =>
        rw [hp] at h
        simp only [OpOut.mk.injEq, Result.ok.injEq] at h
        obtain ⟨hres, hst, -⟩ := h
        subst hres
        exact hst.symm

theorem getPageByTitle_fetch (c : Confluence) (now : Nat) (key title : String)
    (resp : RemoteResponse) (page : Page) (c' : Confluence)
    (h : GetPageByTitle c now key title resp = ⟨.ok page, c', true⟩) :
    c' = { c with cache := cacheSet (cacheSet c.cache now ("pages-" ++ key ++ "-" ++ page.ID) (.page page)) now ("pages-" ++ key ++ "-" ++ normalizeTitle page.Title) (.page page) }
    ∧ cacheGet c.cache now ("pages-" ++ key ++ "-" ++ title) = none := by
  unfold GetPageByTitle at h
  cases hGet : cacheGet c.cache now ("pages-" ++ key ++ "-" ++ title) with
  | some v =>
    rw [hGet] at h
    cases v <;> simp at h
  | none =>
    rw [hGet] at h
    refine ⟨?_, rfl⟩
    cases resp with
    | transportErr => simp at h
    | empty => simp at h
    | parseFail => simp at h
    | json j =>
      unfold handlePageData at h
      simp only [] at h
      cases hch : jsonChildren (jsonPath j ["results"]) with
      | none => rw [hch] at h; simp at h
      | some l =>
        rw [hch] at h
        cases l with
        | nil => simp at h
        | cons r rest =>
          simp only [] at h
          cases hp : parsePage r with
          | none => rw [hp] at h; simp at h
          | some p =>
            rw [hp] at h
            simp only [OpOut.mk.injEq, Result.ok.injEq] at h
            obtain ⟨hres, hst, -⟩ := h
            subst hres
            exact hst.symm

theorem getSpaces_state_cases (c : Confluence) (now : Nat) (resp : RemoteResponse) :
    (GetSpaces c now resp).state = c ∨ ∃ v, (GetSpaces c now resp).res = .ok v := by
  unfold GetSpaces
  cases hGet : cacheGet c.cache now "spaces-all" with
  | some v =>
    cases v with
    | spaces sp => right; exact ⟨sp, rfl⟩
    | page p => left; rfl
    | attachment a => left; rfl
  | none =>
    cases resp with
    | transportErr => left; rfl
    | empty => left; rfl
    | parseFail => left; rfl
    | json j =>
      simp only []
      split
      · left; rfl
      · split
        · left; rfl
        · right; exact ⟨_, rfl⟩

theorem getPageByTitle_state_cases (c : Confluence) (now : Nat) (key title : String)
    (resp : RemoteResponse) :
    (GetPageByTitle c now key title resp).state = c
    ∨ ∃ v, (GetPageByTitle c now key title resp).res = .ok v := by
  unfold GetPageByTitle
  cases hGet : cacheGet c.cache now ("pages-" ++ key ++ "-" ++ title) with
  | some v =>
    cases v with
    | spaces sp => left; rfl
    | page p => right; exact ⟨p, rfl⟩
    | attachment a => left; rfl
  | none =>
    cases resp with
    | transportErr => left; rfl
    | empty => left; rfl
    | parseFail => left; rfl
    | json j =>
      unfold handlePageData
      simp only []
      split
      · left; rfl
      · left; rfl
      · split
        · left; rfl
        · right; exact ⟨_, rfl⟩

theorem getPageById_state_cases (c : Confluence) (now : Nat) (key id : String)
    (resp : RemoteResponse) :
    (GetPageById c now key id resp).state = c
    ∨ ∃ v, (GetPageById c now key id resp).res = .ok v := by
  unfold GetPageById
  cases hGet : cacheGet c.cache now ("pages-" ++ key ++ "-" ++ id) with
  | some v =>
    cases v with
    | spaces sp => left; rfl
    | page p => right; exact ⟨p, rfl⟩
    | attachment a => left; rfl
  | none =>
    cases resp with
    | transportErr => left; rfl
    | empty => left; rfl
    | parseFail => left; rfl
    | json j =>
      unfold handlePageData
      simp only []
      split
      · left; rfl
      · right; exact ⟨_, rfl⟩

theorem getAttachment_state_cases (c : Confluence) (now : Nat)
    (id file ver date api : String) (resp : ByteResponse) :
    (GetAttachment c now id file ver date api resp).state = c
    ∨ ∃ v, (GetAttachment c now id file ver date api resp).res = .ok v := by
  unfold GetAttachment
  cases hGet : cacheGet c.cache now ("attachment-" ++ id ++ "-" ++ file ++ "-" ++ date) with
  | some v =>
    cases v with
    | spaces sp => left; rfl
    | page p => left; rfl
    | attachment a => right; exact ⟨a, rfl⟩
  | none =>
    cases resp with
    | transportErr => left; rfl
    | ok data ct =>
      simp only []
      split
      · left; rfl
      · right; exact ⟨_, rfl⟩

/-! ### Concrete inputs used by witnesses and counterexamples -/

def devSpaceJson : Json :=
  .obj [("id", .str "1"), ("key", .str "DEV"), ("name", .str "Dev"), ("type", .str "global"),
        ("_links", .obj [("self", .str "https://example/s/DEV")]),
        ("description", .obj [("view", .obj [("value", .str "desc")])]),
        ("_expandable", .obj [("homepage", .str "/rest/api/content/100")])]

def devSpace : Space :=
  ⟨"1", "DEV", "Dev", "global", "https://example/s/DEV", "desc", "100"⟩

def pageJson0 : Json :=
  .obj [("id", .str "42"), ("type", .str "page"), ("status", .str "current"),
        ("title", .str "A B"),
        ("body", .obj [("view", .obj [("value", .str "hello")])]),
        ("_links", .obj [("base", .str "https://x"), ("webui", .str "/w")])]

def page0 : Page := ⟨"42", "page", "current", "A B", "https://x//w", "hello", "hello"⟩

/-! ### The claims -/

/-- Claim C1: after a successful remote fetch through `GetPageById`, an
immediately following `GetPageByTitle` on the normalized title is a cache
hit that returns the identical page, changes nothing and contacts no
remote; and symmetrically, after a successful remote fetch through
`GetPageByTitle`, an immediately following `GetPageById` on the fetched
page's id is such a cache hit. -/
theorem c1_dual_key_round_trip (c : Confluence) (now : Nat) (key id title : String)
    (resp resp2 : RemoteResponse) (page : Page) (c' : Confluence) :
    (GetPageById c now key id resp = ⟨.ok page, c', true⟩ →
      GetPageByTitle c' now key (normalizeTitle page.Title) resp2 = ⟨.ok page, c', false⟩)
    ∧ (GetPageByTitle c now key title resp = ⟨.ok page, c', true⟩ →
      GetPageById c' now key page.ID resp2 = ⟨.ok page, c', false⟩) := by
  constructor
  · intro h
    obtain ⟨hc', -⟩ := getPageById_fetch c now key id resp page c' h
    subst hc'
    apply getPageByTitle_hit
    simp only []
    exact cacheGet_cacheSet_self _ now _ (.page page)
  · intro h
    obtain ⟨hc', -⟩ := getPageByTitle_fetch c now key title resp page c' h
    subst hc'
    apply getPageById_hit
    simp only []
    by_cases hk : ("pages-" ++ key ++ "-" ++ page.ID) = ("pages-" ++ key ++ "-" ++ normalizeTitle page.Title)
    · rw [hk]
      exact cacheGet_cacheSet_self _ now _ (.page page)
    · rw [cacheGet_cacheSet_ne _ now now _ _ _ hk]
      exact cacheGet_cacheSet_self _ now _ (.page page)

theorem c1_witness :
    GetPageByTitle (GetPageById NewConfluence 0 "K" "42" (.json pageJson0)).state 0 "K" "A+B" RemoteResponse.empty
      = ⟨.ok page0, (GetPageById NewConfluence 0 "K" "42" (.json pageJson0)).state, false⟩
    ∧ GetPageById (GetPageByTitle NewConfluence 0 "K" "A B" (.json (.obj [("results", .arr [pageJson0])]))).state 0 "K" "42" RemoteResponse.empty
      = ⟨.ok page0, (GetPageByTitle NewConfluence 0 "K" "A B" (.json (.obj [("results", .arr [pageJson0])]))).state, false⟩ := by
  constructor
  · exact (c1_dual_key_round_trip NewConfluence 0 "K" "42" "A B" (.json pageJson0)
      RemoteResponse.empty page0 (GetPageById NewConfluence 0 "K" "42" (.json pageJson0)).state).1
      (by decide)
  · exact (c1_dual_key_round_trip NewConfluence 0 "K" "42" "A B"
      (.json (.obj [("results", .arr [pageJson0])])) RemoteResponse.empty page0
      (GetPageByTitle NewConfluence 0 "K" "A B" (.json (.obj [("results", .arr [pageJson0])]))).state).2
      (by decide)

/-- Claim C3: with the space list already cached, `GetSpace key` performs
no remote fetch and leaves the state unchanged; its result is the first
cached space whose `Key` equals the argument (linear scan), and
`ErrNotFound` exactly when no cached space matches. -/
theorem c3_space_list_scan (c : Confluence) (now : Nat) (key : String) (resp : RemoteResponse)
    (sps : List Space) (hc : cacheGet c.cache now "spaces-all" = some (.spaces sps)) :
    (GetSpace c now key resp).fetched = false
    ∧ (GetSpace c now key resp).state = c
    ∧ (∀ s, sps.find? (fun x => x.Key == key) = some s →
        (GetSpace c now key resp).res = .ok s ∧ s.Key = key)
    ∧ (sps.find? (fun x => x.Key == key) = none →
        (GetSpace c now key resp).res = .error .notFound ∧ ∀ s ∈ sps, s.Key ≠ key) := by
  have hs : GetSpaces c now resp = ⟨.ok sps, c, false⟩ := by
    unfold GetSpaces; rw [hc]
  unfold GetSpace
  rw [hs]
  simp only []
  refine ⟨?_, ?_, ?_, ?_⟩
  · split <;> rfl
  · split <;> rfl
  · intro s hf
    rw [hf]
    have hp := List.find?_some hf
    exact ⟨rfl, beq_iff_eq.mp hp⟩
  · intro hf
    rw [hf]
    refine ⟨rfl, fun s hm he => ?_⟩
    exact (List.find?_eq_none.mp hf s hm) (beq_iff_eq.mpr he)

theorem c3_witness :
    (GetSpace { NewConfluence with cache := cacheSet NewConfluence.cache 0 "spaces-all" (.spaces [devSpace]) } 0 "DEV" RemoteResponse.empty).fetched = false
    ∧ (GetSpace { NewConfluence with cache := cacheSet NewConfluence.cache 0 "spaces-all" (.spaces [devSpace]) } 0 "DEV" RemoteResponse.empty).res = .ok devSpace := by
  refine ⟨(c3_space_list_scan _ 0 "DEV" RemoteResponse.empty [devSpace] (by decide)).1,
    ((c3_space_list_scan _ 0 "DEV" RemoteResponse.empty [devSpace] (by decide)).2.2.1 devSpace (by decide)).1⟩

/-- Claim C5: the attachment cache key ignores `version` and `api`, so
after any successful `GetAttachment`, a repeat call that agrees on id,
filename and modification date but differs in version and token is a
cache hit returning the same bytes and content type, with no remote
fetch and no state change. -/
theorem c5_attachment_key_freshness (c : Confluence) (now : Nat)
    (id file ver1 date api1 ver2 api2 : String) (bresp bresp2 : ByteResponse)
    (att : Attachment) (c' : Confluence) (f : Bool)
    (h : GetAttachment c now id file ver1 date api1 bresp = ⟨.ok att, c', f⟩) :
    GetAttachment c' now id file ver2 date api2 bresp2 = ⟨.ok att, c', false⟩ := by
  unfold GetAttachment at h
  cases hGet : cacheGet c.cache now ("attachment-" ++ id ++ "-" ++ file ++ "-" ++ date) with
  | some v =>
    rw [hGet] at h
    cases v with
    | spaces sp => simp at h
    | page p => simp at h
    | attachment a =>
      simp only [OpOut.mk.injEq, Result.ok.injEq] at h
      obtain ⟨ha, hc2, -⟩ := h
      subst ha
      subst hc2
      exact getAttachment_hit _ _ _ _ ver2 _ api2 _ hGet bresp2
  | none =>
    rw [hGet] at h
    cases bresp with
    | transportErr => simp at h
    | ok data ct =>
      simp only [] at h
      cases hemp : data.isEmpty with
      | true => rw [hemp] at h; simp at h
      | false =>
        rw [hemp] at h
        simp only [Bool.false_eq_true, if_false, OpOut.mk.injEq, Result.ok.injEq] at h
        obtain ⟨ha, hc2, -⟩ := h
        subst ha
        subst hc2
        apply getAttachment_hit
        simp only []
        exact cacheGet_cacheSet_self _ now _ _

theorem c5_witness :
    GetAttachment (GetAttachment NewConfluence 0 "7" "f.png" "3" "2020" "tok" (.ok [1, 2] "image/png")).state 0 "7" "f.png" "9" "2020" "other" ByteResponse.transportErr
      = ⟨.ok ⟨[1, 2], "image/png"⟩, (GetAttachment NewConfluence 0 "7" "f.png" "3" "2020" "tok" (.ok [1, 2] "image/png")).state, false⟩ :=
  c5_attachment_key_freshness NewConfluence 0 "7" "f.png" "3" "2020" "tok" "9" "other"
    (.ok [1, 2] "image/png") ByteResponse.transportErr ⟨[1, 2], "image/png"⟩
    (GetAttachment NewConfluence 0 "7" "f.png" "3" "2020" "tok" (.ok [1, 2] "image/png")).state
    true (by decide)

/-- Claim C6: `Reset` replaces the whole store by a fresh empty one with
the shorter 5-minute TTL and 30-second sweep (versus the default store's
30-minute TTL and 5-minute sweep), so immediately after a reset every
accessor misses the cache and contacts the remote. -/
theorem c6_reset_guaranteed_miss (c : Confluence) (now : Nat)
    (key title id file ver date api : String) (resp : RemoteResponse) (bresp : ByteResponse) :
    Reset c = { c with cache := cacheNew (5 * 60) 30 }
    ∧ (Reset c).cache.entries = []
    ∧ (Reset c).cache.defaultTTL = 5 * 60
    ∧ (Reset c).cache.cleanupInterval = 30
    ∧ NewConfluence.cache.defaultTTL = 30 * 60
    ∧ NewConfluence.cache.cleanupInterval = 5 * 60
    ∧ (GetSpaces (Reset c) now resp).fetched = true
    ∧ (GetSpace (Reset c) now key resp).fetched = true
    ∧ (GetPageByTitle (Reset c) now key title resp).fetched = true
    ∧ (GetPageById (Reset c) now key id resp).fetched = true
    ∧ (GetAttachment (Reset c) now id file ver date api bresp).fetched = true := by
  refine ⟨rfl, rfl, rfl, rfl, rfl, rfl, ?_, ?_, ?_, ?_, ?_⟩
  · exact getSpaces_miss_fetched _ _ _ rfl
  · rw [getSpace_fetched]
    exact getSpaces_miss_fetched _ _ _ rfl
  · exact getPageByTitle_miss_fetched _ _ _ _ _ rfl
  · exact getPageById_miss_fetched _ _ _ _ _ rfl
  · exact getAttachment_miss_fetched _ _ _ _ _ _ _ _ rfl

/-- Claim C2 [counterexample]: a present, well-formed response body whose
single space element lacks the `id` field makes `GetSpaces` crash on the
failed type assertion (`Result.panic`) instead of returning any error
value to the caller. -/
theorem c2_counterexample :
    (GetSpaces NewConfluence 0 (.json (.obj [("results", .arr [.obj [("key", .str "DEV")]])]))).res = .panic := by
  decide

/-- Claim C2 [amended]: when an expected JSON field of a space element or
of a page document is absent or holds a value of the wrong type, the
extraction does not return an error value — it crashes on the failed Go
type assertion (modelled as `Result.panic`); no `MalformedResponseError`
exists in the code. -/
theorem c2_malformed_field_panics (c : Confluence) (now : Nat) (key : String)
    (j jp : Json) (elems : List Json) (e : Json)
    (h1 : cacheGet c.cache now "spaces-all" = none)
    (h2 : jsonChildren (jsonPath j ["results"]) = some elems)
    (h3 : e ∈ elems) (h4 : parseSpace e = none)
    (h5 : parsePage jp = none) :
    (GetSpaces c now (.json j)).res = .panic
    ∧ (handlePageData c now key jp).1 = .panic := by
  constructor
  · unfold GetSpaces
    rw [h1]
    simp only []
    rw [h2]
    simp only []
    rw [parseSpaces_none_of_mem h3 h4]
  · unfold handlePageData
    rw [h5]

theorem c2_witness :
    (GetSpaces NewConfluence 0 (.json (.obj [("results", .arr [.obj [("id", .num)]])]))).res = .panic
    ∧ (handlePageData NewConfluence 0 "K" (.obj [])).1 = .panic :=
  c2_malformed_field_panics NewConfluence 0 "K" (.obj [("results", .arr [.obj [("id", .num)]])])
    (.obj []) [.obj [("id", .num)]] (.obj [("id", .num)]) rfl rfl (by simp) rfl rfl

/-- Claim C4 [counterexample]: `GetSpace` with an unmatched key on a cold
cache stores the freshly fetched space list under `spaces-all` and then
fails with `ErrNotFound` — a failing operation after which the cache does
hold a new entry, contradicting the claim's universal clause. -/
theorem c4_counterexample :
    (GetSpace NewConfluence 0 "NOPE" (.json (.obj [("results", .arr [devSpaceJson])]))).res = .error .notFound
    ∧ cacheGet (GetSpace NewConfluence 0 "NOPE" (.json (.obj [("results", .arr [devSpaceJson])]))).state.cache 0 "spaces-all" = some (.spaces [devSpace]) := by
  exact ⟨by decide, by decide⟩

/-- Claim C4 [amended]: an empty results array makes `GetPageByTitle`
fail with `ErrNotFound` leaving the state — hence the title-derived key —
exactly as before; `GetSpaces`, `GetPageByTitle`, `GetPageById` and
`GetAttachment` never change the state when they return an error, while
`GetSpace` may cache the successfully fetched space list before failing
with `ErrNotFound`. -/
theorem c4_no_cache_on_failure (c : Confluence) (now : Nat)
    (key title id file ver date api : String) (resp : RemoteResponse)
    (bresp : ByteResponse) (j : Json) (e : Err) :
    (cacheGet c.cache now ("pages-" ++ key ++ "-" ++ title) = none →
      jsonChildren (jsonPath j ["results"]) = some [] →
      GetPageByTitle c now key title (.json j) = ⟨.error .notFound, c, true⟩
        ∧ cacheGet (GetPageByTitle c now key title (.json j)).state.cache now ("pages-" ++ key ++ "-" ++ title) = none)
    ∧ ((GetSpaces c now resp).res = .error e → (GetSpaces c now resp).state = c)
    ∧ ((GetPageByTitle c now key title resp).res = .error e → (GetPageByTitle c now key title resp).state = c)
    ∧ ((GetPageById c now key id resp).res = .error e → (GetPageById c now key id resp).state = c)
    ∧ ((GetAttachment c now id file ver date api bresp).res = .error e → (GetAttachment c now id file ver date api bresp).state = c) := by
  refine ⟨?_, ?_, ?_, ?_, ?_⟩
  · intro h1 h2
    have heq : GetPageByTitle c now key title (.json j) = ⟨.error .notFound, c, true⟩ := by
      unfold GetPageByTitle
      rw [h1]
      simp only []
      rw [h2]
    refine ⟨heq, ?_⟩
    rw [heq]
    exact h1
  · intro h
    rcases getSpaces_state_cases c now resp with hs | ⟨v, hv⟩
    · exact hs
    · rw [h] at hv; simp at hv
  · intro h
    rcases getPageByTitle_state_cases c now key title resp with hs | ⟨v, hv⟩
    · exact hs
    · rw [h] at hv; simp at hv
  · intro h
    rcases getPageById_state_cases c now key id resp with hs | ⟨v, hv⟩
    · exact hs
    · rw [h] at hv; simp at hv
  · intro h
    rcases getAttachment_state_cases c now id file ver date api bresp with hs | ⟨v, hv⟩
    · exact hs
    · rw [h] at hv; simp at hv

theorem c4_witness :
    (GetPageByTitle NewConfluence 0 "K" "T" (.json (.obj [("results", .arr [])])) = ⟨.error .notFound, NewConfluence, true⟩
      ∧ cacheGet (GetPageByTitle NewConfluence 0 "K" "T" (.json (.obj [("results", .arr [])]))).state.cache 0 ("pages-" ++ "K" ++ "-" ++ "T") = none)
    ∧ (GetSpaces NewConfluence 0 RemoteResponse.transportErr).state = NewConfluence :=
  ⟨(c4_no_cache_on_failure NewConfluence 0 "K" "T" "i" "f" "v" "d" "a" RemoteResponse.transportErr
      ByteResponse.transportErr (.obj [("results", .arr [])]) .remote).1 rfl rfl,
   (c4_no_cache_on_failure NewConfluence 0 "K" "T" "i" "f" "v" "d" "a" RemoteResponse.transportErr
      ByteResponse.transportErr (.obj [("results", .arr [])]) .remote).2.1 (by decide)⟩

/-- Claim C8: a remote space list with a single element having id `1`,
key `DEV`, name `Dev` and expandable homepage `/rest/api/content/100`
(all other expected fields present as strings) makes `GetSpace "DEV"`
succeed with `HomepageID = "100"`, obtained by a purely textual strip of
the known path prefix during the one and only fetch. -/
theorem c8_homepage_textual_strip :
    (GetSpace NewConfluence 0 "DEV" (.json (.obj [("results", .arr [devSpaceJson])]))).res = .ok devSpace
    ∧ devSpace.HomepageID = "100"
    ∧ stringReplace "/rest/api/content/100" "/rest/api/content/" "" = "100"
    ∧ (GetSpace NewConfluence 0 "DEV" (.json (.obj [("results", .arr [devSpaceJson])]))).fetched = true := by
  refine ⟨by decide, rfl, by decide, by decide⟩

/-- Claim C7 [counterexample]: the body rewrite is not idempotent — for
the body `/wiki/display/wiki/display/` (two overlapping occurrences of
the display pattern) a second application changes the already-rewritten
body again. -/
theorem c7_counterexample :
    rewriteBody (rewriteBody "/wiki/display/wiki/display/") ≠ rewriteBody "/wiki/display/wiki/display/" := by
  decide

/-- Claim C7 [amended]: the rewrite replaces every leftmost
non-overlapping occurrence of `/wiki/display/` by `/page/` and of
`/wiki/download/attachments/` by `/download/`; it is idempotent for
every body whose rewritten form contains no residual occurrence of
either pattern — which overlapping occurrences in the original body can
leave behind. -/
theorem c7_rewrite_idempotent_no_residual (body : String)
    (h1 : ¬ "/wiki/display/".data <:+: (rewriteBody body).data)
    (h2 : ¬ "/wiki/download/attachments/".data <:+: (rewriteBody body).data) :
    rewriteBody (rewriteBody body) = rewriteBody body := by
  have e1 : stringReplace (rewriteBody body) "/wiki/display/" "/page/" = rewriteBody body := by
    apply String.ext
    show replaceAll "/wiki/display/".data "/page/".data (rewriteBody body).data = (rewriteBody body).data
    exact replaceAll_no_occ _ _ _ h1
  show stringReplace (stringReplace (rewriteBody body) "/wiki/display/" "/page/") "/wiki/download/attachments/" "/download/" = rewriteBody body
  rw [e1]
  apply String.ext
  show replaceAll "/wiki/download/attachments/".data "/download/".data (rewriteBody body).data = (rewriteBody body).data
  exact replaceAll_no_occ _ _ _ h2

theorem c7_witness :
    rewriteBody (rewriteBody "a/wiki/display/b") = rewriteBody "a/wiki/display/b" :=
  c7_rewrite_idempotent_no_residual "a/wiki/display/b" (by decide) (by decide)

def pageJsonCx9 : Json :=
  .obj [("id", .str "A B"), ("type", .str "page"), ("status", .str "current"),
        ("title", .str "X"),
        ("body", .obj [("view", .obj [("value", .str "b")])]),
        ("_links", .obj [("base", .str "h"), ("webui", .str "w")])]

/-- Claim C9 [counterexample]: `handlePageData` also populates the
id-derived key, so when the remote returns a page whose id field equals
the raw spaced title, the first `GetPageByTitle` writes an entry under
the raw-title key and the second call with the same raw title is a cache
hit, not a remote fetch. -/
theorem c9_counterexample :
    (GetPageByTitle NewConfluence 0 "K" "A B" (.json (.obj [("results", .arr [pageJsonCx9])]))).fetched = true
    ∧ (GetPageByTitle NewConfluence 0 "K" "A B" (.json (.obj [("results", .arr [pageJsonCx9])]))).res = .ok ⟨"A B", "page", "current", "X", "h/w", "b", "b"⟩
    ∧ (GetPageByTitle (GetPageByTitle NewConfluence 0 "K" "A B" (.json (.obj [("results", .arr [pageJsonCx9])]))).state 0 "K" "A B" RemoteResponse.empty).fetched = false := by
  refine ⟨by decide, by decide, by decide⟩

/-- Claim C9 [amended]: `GetPageByTitle` looks up the raw-title key but
populates the response-id key and the normalized-title key; for a title
containing a space the normalized key never equals the raw key, so
whenever the fetched page's id also differs from the raw title the raw
key stays absent and an immediately repeated call with the same raw
title fetches from the remote again. -/
theorem c9_raw_title_never_hit (c : Confluence) (now : Nat) (key title : String)
    (resp resp2 : RemoteResponse) (page : Page) (c' : Confluence)
    (hsp : ' ' ∈ title.data)
    (h : GetPageByTitle c now key title resp = ⟨.ok page, c', true⟩)
    (hid : page.ID ≠ title) :
    cacheGet c'.cache now ("pages-" ++ key ++ "-" ++ title) = none
    ∧ (GetPageByTitle c' now key title resp2).fetched = true := by
  obtain ⟨hc', hmiss⟩ := getPageByTitle_fetch c now key title resp page c' h
  subst hc'
  have hk1 : ("pages-" ++ key ++ "-" ++ title) ≠ ("pages-" ++ key ++ "-" ++ page.ID) := by
    intro hcontra
    exact hid (string_append_cancel_left _ _ _ hcontra).symm
  have hk2 : ("pages-" ++ key ++ "-" ++ title) ≠ ("pages-" ++ key ++ "-" ++ normalizeTitle page.Title) := by
    intro hcontra
    have ht := string_append_cancel_left _ _ _ hcontra
    exact normalizeTitle_no_space page.Title (ht ▸ hsp)
  have hget : cacheGet ({ c with cache := cacheSet (cacheSet c.cache now ("pages-" ++ key ++ "-" ++ page.ID) (.page page)) now ("pages-" ++ key ++ "-" ++ normalizeTitle page.Title) (.page page) } : Confluence).cache now ("pages-" ++ key ++ "-" ++ title) = none := by
    simp only []
    rw [cacheGet_cacheSet_ne _ now now _ _ _ hk2, cacheGet_cacheSet_ne _ now now _ _ _ hk1]
    exact hmiss
  exact ⟨hget, getPageByTitle_miss_fetched _ now key title resp2 hget⟩

theorem c9_witness :
    cacheGet (GetPageByTitle NewConfluence 0 "K" "A B" (.json (.obj [("results", .arr [pageJson0])]))).state.cache 0 ("pages-" ++ "K" ++ "-" ++ "A B") = none
    ∧ (GetPageByTitle (GetPageByTitle NewConfluence 0 "K" "A B" (.json (.obj [("results", .arr [pageJson0])]))).state 0 "K" "A B" RemoteResponse.empty).fetched = true :=
  c9_raw_title_never_hit NewConfluence 0 "K" "A B" (.json (.obj [("results", .arr [pageJson0])]))
    RemoteResponse.empty page0
    (GetPageByTitle NewConfluence 0 "K" "A B" (.json (.obj [("results", .arr [pageJson0])]))).state
    (by decide) (by decide) (by decide)

/-- Claim C10 [counterexample]: with requested id `A+B`, a remote page
whose id field is `42` and title `A B` is stored under its normalized
title key `pages-K-A+B`, so the immediately repeated
`GetPageById "K" "A+B"` is a cache hit even though the response's id
differs from the requested id — refuting the claimed equivalence. -/
theorem c10_counterexample :
    (GetPageById NewConfluence 0 "K" "A+B" (.json pageJson0)).fetched = true
    ∧ (GetPageById NewConfluence 0 "K" "A+B" (.json pageJson0)).res = .ok page0
    ∧ page0.ID = "42"
    ∧ (GetPageById (GetPageById NewConfluence 0 "K" "A+B" (.json pageJson0)).state 0 "K" "A+B" RemoteResponse.empty).fetched = false
    ∧ (GetPageById (GetPageById NewConfluence 0 "K" "A+B" (.json pageJson0)).state 0 "K" "A+B" RemoteResponse.empty).res = .ok page0 := by
  refine ⟨by decide, by decide, rfl, by decide, by decide⟩

/-- Claim C10 [amended]: after a successful remote fetch through
`GetPageById`, the page is cached under the response-id key and the
normalized response-title key, not under the requested id; an
immediately repeated `GetPageById` with the same requested id is a cache
hit returning the same page if the requested id equals the response's id
or its normalized title, and fetches from the remote again when it
equals neither. -/
theorem c10_response_id_population (c : Confluence) (now : Nat) (key id : String)
    (resp resp2 : RemoteResponse) (page : Page) (c' : Confluence)
    (h : GetPageById c now key id resp = ⟨.ok page, c', true⟩) :
    (page.ID = id ∨ normalizeTitle page.Title = id →
      GetPageById c' now key id resp2 = ⟨.ok page, c', false⟩)
    ∧ (page.ID ≠ id → normalizeTitle page.Title ≠ id →
      (GetPageById c' now key id resp2).fetched = true) := by
  obtain ⟨hc', hmiss⟩ := getPageById_fetch c now key id resp page c' h
  subst hc'
  constructor
  · intro hor
    apply getPageById_hit
    simp only []
    rcases hor with he | he
    · rw [← he]
      by_cases hk : ("pages-" ++ key ++ "-" ++ page.ID) = ("pages-" ++ key ++ "-" ++ normalizeTitle page.Title)
      · rw [hk]
        exact cacheGet_cacheSet_self _ now _ (.page page)
      · rw [cacheGet_cacheSet_ne _ now now _ _ _ hk]
        exact cacheGet_cacheSet_self _ now _ (.page page)
    · rw [← he]
      exact cacheGet_cacheSet_self _ now _ (.page page)
  · intro h1 h2
    have hk2 : ("pages-" ++ key ++ "-" ++ id) ≠ ("pages-" ++ key ++ "-" ++ normalizeTitle page.Title) := by
      intro hcontra
      exact h2 (string_append_cancel_left _ _ _ hcontra).symm
    have hk1 : ("pages-" ++ key ++ "-" ++ id) ≠ ("pages-" ++ key ++ "-" ++ page.ID) := by
      intro hcontra
      exact h1 (string_append_cancel_left _ _ _ hcontra).symm
    have hget : cacheGet ({ c with cache := cacheSet (cacheSet c.cache now ("pages-" ++ key ++ "-" ++ page.ID) (.page page)) now ("pages-" ++ key ++ "-" ++ normalizeTitle page.Title) (.page page) } : Confluence).cache now ("pages-" ++ key ++ "-" ++ id) = none := by
      simp only []
      rw [cacheGet_cacheSet_ne _ now now _ _ _ hk2, cacheGet_cacheSet_ne _ now now _ _ _ hk1]
      exact hmiss
    exact getPageById_miss_fetched _ now key id resp2 hget

theorem c10_witness :
    GetPageById (GetPageById NewConfluence 0 "K" "42" (.json pageJson0)).state 0 "K" "42" RemoteResponse.empty
      = ⟨.ok page0, (GetPageById NewConfluence 0 "K" "42" (.json pageJson0)).state, false⟩ :=
  (c10_response_id_population NewConfluence 0 "K" "42" (.json pageJson0) RemoteResponse.empty
    page0 (GetPageById NewConfluence 0 "K" "42" (.json pageJson0)).state (by decide)).1
    (Or.inl (by decide))

end Convergence
